import Mathlib

/-!
Shallow embedding of the per-connection SMTP protocol engine of
go-smtp-server (src/conn.go), together with models of the Go standard
library routines the code calls (strings.Fields, strings.Trim,
strconv.ParseInt, encoding/base64, regexp matching for the MAIL FROM
pattern).  Strings are treated as their character sequences; the
protocol traffic in question is ASCII.
-/

set_option autoImplicit false

namespace SmtpServer

/-! ### String helpers (models of the Go standard library calls) -/

/-- Worker for `fields`: accumulates the current token (reversed) while
scanning the character list. -/
def fieldsGo : List Char → List Char → List (List Char)
  | acc, [] => if acc.isEmpty then [] else [acc.reverse]
  | acc, c :: r =>
    if c.isWhitespace then
      if acc.isEmpty then fieldsGo [] r else acc.reverse :: fieldsGo [] r
    else fieldsGo (c :: acc) r

/-- Model of Go `strings.Fields`: whitespace-separated tokens, empties
dropped. -/
def fields (s : String) : List String :=
  (fieldsGo [] s.data).map String.mk

/-- Model of Go `strings.ToUpper` on ASCII input. -/
def upperStr (s : String) : String :=
  String.mk (s.data.map Char.toUpper)

/-- Model of Go `strings.Trim`: strip characters of the cutset from both
ends. -/
def trimSet (s : String) (cut : List Char) : String :=
  String.mk (((s.data.dropWhile (fun c => cut.contains c)).reverse.dropWhile
      (fun c => cut.contains c)).reverse)

/-- Numeric value of a decimal digit sequence. -/
def digitsVal (l : List Char) : Nat :=
  l.foldl (fun a c => a * 10 + (c.toNat - 48)) 0

/-- Model of Go `strconv.ParseInt(s, 10, 32)`: optional sign, decimal
digits, value restricted to the 32-bit signed range; `none` models a
non-nil error. -/
def parseInt32 (s : String) : Option Int :=
  let p : Int × List Char :=
    match s.data with
    | '+' :: r => (1, r)
    | '-' :: r => (-1, r)
    | r => (1, r)
  if p.2.isEmpty then none
  else if p.2.all Char.isDigit then
    let v : Int := p.1 * (digitsVal p.2 : Nat)
    if v < -(2 ^ 31) ∨ (2 ^ 31 - 1 : Int) < v then none else some v
  else none

/-! ### Base64 (model of Go `encoding/base64` StdEncoding) -/

/-- Value of a standard-alphabet base64 character. -/
def b64Val (c : Char) : Option Nat :=
  if 'A' ≤ c ∧ c ≤ 'Z' then some (c.toNat - 65)
  else if 'a' ≤ c ∧ c ≤ 'z' then some (c.toNat - 71)
  else if '0' ≤ c ∧ c ≤ '9' then some (c.toNat + 4)
  else if c = '+' then some 62
  else if c = '/' then some 63
  else none

/-- Decode base64 text four characters at a time; padding `=` is only
accepted in the final quantum, mirroring Go's strict decoder. -/
def b64DecodeGo : List Char → Option (List Nat)
  | [] => some []
  | a :: b :: c :: d :: rest =>
    match b64Val a, b64Val b with
    | some va, some vb =>
      if c = '=' then
        if d = '=' ∧ rest = [] then some [va * 4 + vb / 16] else none
      else
        match b64Val c with
        | some vc =>
          if d = '=' then
            if rest = [] then some [va * 4 + vb / 16, (vb % 16) * 16 + vc / 4]
            else none
          else
            match b64Val d with
            | some vd =>
              (b64DecodeGo rest).map
                (fun t => (va * 4 + vb / 16) :: ((vb % 16) * 16 + vc / 4) ::
                  ((vc % 4) * 64 + vd) :: t)
            | none => none
        | none => none
    | _, _ => none
  | _ => none

/-- Model of Go `base64.StdEncoding.DecodeString`; CR and LF characters
are ignored before decoding, as Go's decoder does. -/
def base64Decode (s : String) : Option (List Nat) :=
  b64DecodeGo (s.data.filter (fun c => (c != '\r') && (c != '\n')))

/-- The standard base64 alphabet. -/
def b64Chars : List Char :=
  "ABCDEFGHIJKLMNOPQRSTUVWXYZabcdefghijklmnopqrstuvwxyz0123456789+/".data

/-- Character for a 6-bit value. -/
def b64Char (n : Nat) : Char := b64Chars.getD n 'A'

/-- Encode bytes three at a time with `=` padding. -/
def b64EncodeGo : List Nat → List Char
  | [] => []
  | [x] => [b64Char (x / 4), b64Char ((x % 4) * 16), '=', '=']
  | [x, y] => [b64Char (x / 4), b64Char ((x % 4) * 16 + y / 16),
      b64Char ((y % 16) * 4), '=']
  | x :: y :: z :: rest =>
    b64Char (x / 4) :: b64Char ((x % 4) * 16 + y / 16) ::
      b64Char ((y % 16) * 4 + z / 64) :: b64Char (z % 64) :: b64EncodeGo rest

/-- Model of Go `base64.StdEncoding.EncodeToString`. -/
def base64Encode (bs : List Nat) : String := String.mk (b64EncodeGo bs)

/-! ### Data model (src/conn.go `Conn`, `Message`, `Server`) -/

/-- The message envelope (`Message` in the Go source); the body stream is
modelled separately by the data-reader functions. -/
structure Message where
  From : String
  To : List String
deriving Repr, DecidableEq

/-- Per-connection protocol state, the fields of `Conn` that the state
machine reads or writes.  `isTLS` models the dynamic type test
`c.conn.(*tls.Conn)`; `closed` records that `Close` was called. -/
structure Conn where
  helo : String
  User : Option String
  msg : Option Message
  isTLS : Bool
  nbrErrors : Nat
  closed : Bool
deriving Repr, DecidableEq

/-- Outcome of the backend `User.Send` call, as `handleData` inspects it:
success, an `*smtpError` carrying a code and text, or a generic error. -/
inductive SendOutcome where
  | ok
  | smtpErr (code text : String)
  | err (text : String)
deriving Repr, DecidableEq

/-- One `sasl.Next` result: challenge bytes, the done flag, an optional
error string, and the optional assignment the mechanism performs on
`c.User` (the SASL factory receives the connection and a mechanism sets
the user on success). -/
structure SaslStep where
  challenge : List Nat
  done : Bool
  err : Option String
  setUser : Option String

/-- A SASL mechanism session, as a state machine over an abstract `Nat`
session state; `step` models `sasl.Next` on the bytes of the client
response (`none` models a nil slice). -/
structure Mech where
  step : Nat → Option (List Nat) → Nat × SaslStep

/-- Server configuration, the fields of `Server` the engine consults.
`auths` is the mechanism registry as an association list, `send` the
backend delivery operation of the logged-in user. -/
structure Server where
  Domain : String
  TLSConfig : Bool
  AllowInsecureAuth : Bool
  MaxMessageBytes : Nat
  MaxRecipients : Nat
  caps : List String
  auths : List (String × Mech)
  send : String → Message → SendOutcome

/-- A reply as one `c.Write(code, text...)` call: the code and the text
lines. -/
abbrev Reply := String × List String

/-- Result of dispatching one command: the successor connection state,
the replies written, and whether the Go code would have panicked (nil
user on DATA delivery, missing mechanism token after `strings.Fields`). -/
structure HRes where
  conn : Conn
  replies : List Reply
  crashed : Bool
deriving Repr

/-- A single-reply result leaving the connection state unchanged. -/
def reply1 (c : Conn) (code text : String) : HRes :=
  ⟨c, [(code, [text])], false⟩

/-- `Conn.reset` (src/conn.go:401): log the user out and clear the hello
domain, the user and the envelope. -/
def resetConn (c : Conn) : Conn :=
  { c with helo := "", User := none, msg := none }

/-- Modelled from the spec: `parseHelloArgument` lives in a repository
file that is not under src/.  Per the spec, the first
whitespace-delimited token of the argument is the client domain, and an
empty or missing domain is a parse error. -/
def parseHelloArgument (arg : String) : Option String :=
  match fields arg with
  | [] => none
  | d :: _ => some d

/-- The `AUTH` capability line advertised by EHLO. -/
def ehloAuthCap (srv : Server) : String :=
  "AUTH" ++ String.join (srv.auths.map (fun p => " " ++ p.1))

/-- EHLO capability list composition (src/conn.go:132). -/
def ehloCaps (srv : Server) (c : Conn) : List String :=
  srv.caps
    ++ (if srv.TLSConfig ∧ ¬c.isTLS then ["STARTTLS"] else [])
    ++ (if c.isTLS ∨ srv.AllowInsecureAuth then [ehloAuthCap srv] else [])
    ++ (if 0 < srv.MaxMessageBytes then
          ["SIZE " ++ toString srv.MaxMessageBytes] else [])

/-- `Conn.handleGreet` (src/conn.go:113). -/
def handleGreet (srv : Server) (c : Conn) (enhanced : Bool) (arg : String) :
    HRes :=
  match parseHelloArgument arg with
  | none =>
    reply1 c "501"
      ("Domain/address argument required for " ++
        (if enhanced then "EHLO" else "HELO"))
  | some domain =>
    if enhanced then
      ⟨{ c with helo := domain },
        [("250", ("Hello " ++ domain) :: ehloCaps srv c)], false⟩
    else
      ⟨{ c with helo := domain }, [("250", ["Hello " ++ domain])], false⟩

/-- `Conn.handleRcpt` (src/conn.go:205). -/
def handleRcpt (srv : Server) (c : Conn) (arg : String) : HRes :=
  match c.msg with
  | none => reply1 c "502" "Missing MAIL FROM command."
  | some m =>
    if m.From = "" then reply1 c "502" "Missing MAIL FROM command."
    else if arg.data.length < 4 ∨ upperStr (String.mk (arg.data.take 3)) ≠ "TO:" then
      reply1 c "501" "Was expecting RCPT arg syntax of TO:<address>"
    else
      let recipient := trimSet (String.mk (arg.data.drop 3)) ['<', '>', ' ']
      if 0 < srv.MaxRecipients ∧ srv.MaxRecipients ≤ m.To.length then
        reply1 c "552"
          ("Maximum limit of " ++ toString srv.MaxRecipients ++
            " recipients reached")
      else
        ⟨{ c with msg := some { m with To := m.To ++ [recipient] } },
          [("250", ["I'll make sure <" ++ recipient ++ "> gets this"])], false⟩

/-- `Conn.handleStartTLS` (src/conn.go:300).  `hsOK` is the outcome of
the TLS handshake; even on handshake failure the Go code replaces the
transport with the TLS wrapper and resets the session. -/
def handleStartTLS (srv : Server) (c : Conn) (hsOK : Bool) : HRes :=
  if c.isTLS then reply1 c "502" "Already running in TLS"
  else if ¬srv.TLSConfig then reply1 c "502" "TLS not supported"
  else
    ⟨{ resetConn c with isTLS := true },
      ("220", ["Ready to start TLS"]) ::
        (if hsOK then [] else [("550", ["Handshake error"])]), false⟩

/-- Reply written by `handleData` on the delivery outcome
(src/conn.go:344). -/
def sendReply (o : SendOutcome) : Reply :=
  match o with
  | SendOutcome.ok => ("250", ["Ok: queued"])
  | SendOutcome.smtpErr code text => (code, [text])
  | SendOutcome.err text =>
    ("554", ["Error: transaction failed, blame it on the weather: " ++ text])

/-- `Conn.handleData` (src/conn.go:329).  The body stream consumed by the
backend is not part of the state-machine model; `srv.send` yields the
delivery outcome.  A nil `c.User` would make the Go code panic on
`c.User.Send`, recorded via `crashed`. -/
def handleData (srv : Server) (c : Conn) (arg : String) : HRes :=
  if arg ≠ "" then
    reply1 c "501" "DATA command should not have any arguments"
  else
    match c.msg with
    | none => reply1 c "502" "Missing RCPT TO command."
    | some m =>
      if m.From = "" ∨ m.To = [] then
        reply1 c "502" "Missing RCPT TO command."
      else
        match c.User with
        | none =>
          ⟨c, [("354", ["Go ahead. End your data with <CR><LF>.<CR><LF>"])],
            true⟩
        | some u =>
          ⟨resetConn c,
            [("354", ["Go ahead. End your data with <CR><LF>.<CR><LF>"]),
              sendReply (srv.send u m)], false⟩

/-! ### Regex matching for the MAIL FROM pattern (src/conn.go:168)

The Go code matches `(?i)^FROM:\s*<((?:\\>|[^>])+|"[^"]+"@[^>]+)>( [\w= ]+)?$`
with `regexp.FindStringSubmatch`, which uses leftmost-first (Perl style)
alternation with greedy repetition.  We embed a small backtracking
matcher in continuation-passing style, with fuel for termination; the
fuel is generous enough for any input of the given length. -/

/-- Regular-expression abstract syntax: character predicate, sequence,
leftmost-first alternation, greedy star, numbered capture group. -/
inductive Re where
  | eps
  | ch (p : Char → Bool)
  | seq (a b : Re)
  | alt (a b : Re)
  | star (a : Re)
  | grp (n : Nat) (a : Re)

/-- Backtracking matcher; `caps` carries the capture groups recorded so
far and `k` is the continuation on the remaining input. -/
def reM : Nat → Re → List Char → List (Nat × List Char) →
    (List Char → List (Nat × List Char) → Option (List (Nat × List Char))) →
    Option (List (Nat × List Char))
  | 0, _, _, _, _ => none
  | _ + 1, Re.eps, s, caps, k => k s caps
  | _ + 1, Re.ch p, s, caps, k =>
    match s with
    | [] => none
    | c :: rest => if p c then k rest caps else none
  | fuel + 1, Re.seq a b, s, caps, k =>
    reM fuel a s caps (fun s1 c1 => reM fuel b s1 c1 k)
  | fuel + 1, Re.alt a b, s, caps, k =>
    (reM fuel a s caps k) <|> (reM fuel b s caps k)
  | fuel + 1, Re.star a, s, caps, k =>
    (reM fuel a s caps (fun s1 c1 =>
      if s1.length < s.length then reM fuel (Re.star a) s1 c1 k else none))
      <|> k s caps
  | fuel + 1, Re.grp n a, s, caps, k =>
    reM fuel a s caps
      (fun s1 c1 => k s1 ((n, s.take (s.length - s1.length)) :: c1))

/-- One-or-more repetition. -/
def rePlus (a : Re) : Re := Re.seq a (Re.star a)

/-- Zero-or-one repetition (alternative tried first, as in Perl). -/
def reOpt (a : Re) : Re := Re.alt a Re.eps

/-- A literal character. -/
def reLit (c : Char) : Re := Re.ch (fun x => x == c)

/-- A case-insensitive literal character, for the `(?i)` flag. -/
def reLitI (c : Char) : Re := Re.ch (fun x => x.toLower == c.toLower)

/-- A case-insensitive literal string. -/
def reStrI (s : String) : Re :=
  s.data.foldr (fun c r => Re.seq (reLitI c) r) Re.eps

/-- The `\s` class of Go's regexp: `[\t\n\f\r ]`. -/
def reSpace : Re :=
  Re.ch (fun c => (c == ' ') || (c == '\t') || (c == '\n') ||
    (c == '\x0c') || (c == '\r'))

/-- The `[\w= ]` class: word characters, `=` and space. -/
def wordEqChar (c : Char) : Bool :=
  c.isAlphanum || (c == '_') || (c == '=') || (c == ' ')

/-- First alternative of the address group: `(?:\\>|[^>])+`. -/
def mailAddrPlain : Re :=
  rePlus (Re.alt (Re.seq (reLit '\\') (reLit '>')) (Re.ch (fun c => c != '>')))

/-- Second alternative of the address group: `"[^"]+"@[^>]+`. -/
def mailAddrQuoted : Re :=
  Re.seq (reLit '"')
    (Re.seq (rePlus (Re.ch (fun c => c != '"')))
      (Re.seq (reLit '"')
        (Re.seq (reLit '@') (rePlus (Re.ch (fun c => c != '>'))))))

/-- The full MAIL argument pattern of src/conn.go:168, anchored at both
ends. -/
def mailPattern : Re :=
  Re.seq (reStrI "FROM:")
    (Re.seq (Re.star reSpace)
      (Re.seq (reLit '<')
        (Re.seq (Re.grp 1 (Re.alt mailAddrPlain mailAddrQuoted))
          (Re.seq (reLit '>')
            (reOpt (Re.grp 2 (Re.seq (reLit ' ')
              (rePlus (Re.ch wordEqChar)))))))))

/-- The text of a capture group; a group that did not participate yields
the empty string, as Go's `FindStringSubmatch` does. -/
def capGet (caps : List (Nat × List Char)) (n : Nat) : String :=
  match caps.find? (fun p => p.1 == n) with
  | some p => String.mk p.2
  | none => ""

/-- `re.FindStringSubmatch(arg)` for the MAIL pattern: `none` when the
regex does not match, otherwise the pair `(m[1], m[2])`. -/
def mailParse (arg : String) : Option (String × String) :=
  match reM ((arg.data.length + 1) * 100) mailPattern arg.data []
      (fun rest caps => if rest.isEmpty then some caps else none) with
  | none => none
  | some caps => some (capGet caps 1, capGet caps 2)

/-! ### ESMTP parameter parsing -/

/-- Worker splitting a character list at a separator character. -/
def splitCharGo (sep : Char) : List Char → List Char → List (List Char)
  | acc, [] => [acc.reverse]
  | acc, c :: r =>
    if c == sep then acc.reverse :: splitCharGo sep [] r
    else splitCharGo sep (c :: acc) r

/-- Insert a key/value pair into the parameter map, replacing an existing
binding of the key. -/
def insertArg (l : List (String × String)) (k v : String) :
    List (String × String) :=
  match l with
  | [] => [(k, v)]
  | p :: t => if p.1 == k then (k, v) :: t else p :: insertArg t k v

/-- Modelled from the spec: `parseArgs` lives in a repository file that
is not under src/.  Per the spec, the optional MAIL parameters parse as
space-separated `KEY=VALUE` tokens into a case-insensitive mapping, and
any parse failure is an error. -/
def parseArgs (s : String) : Option (List (String × String)) :=
  (fields s).foldlM
    (fun acc tok =>
      match splitCharGo '=' [] tok.data with
      | [kd, vd] => some (insertArg acc (upperStr (String.mk kd)) (String.mk vd))
      | _ => none)
    []

/-- Map lookup with the Go zero value `""` for a missing key, modelling
`args["SIZE"]`. -/
def argGet (l : List (String × String)) (k : String) : String :=
  match l.find? (fun p => p.1 == k) with
  | some p => p.2
  | none => ""

/-- The success tail of `handleMail`: record the reverse-path and reply
250. -/
def mailAccept (c : Conn) (m : Message) (addr : String) : HRes :=
  ⟨{ c with msg := some { m with From := addr } },
    [("250", ["Roger, accepting mail from <" ++ addr ++ ">"])], false⟩

/-- `Conn.handleMail` (src/conn.go:156). -/
def handleMail (srv : Server) (c : Conn) (arg : String) : HRes :=
  if c.helo = "" then reply1 c "502" "Please introduce yourself first."
  else
    match c.msg with
    | none => reply1 c "502" "Please authenticate first."
    | some m =>
      match mailParse arg with
      | none => reply1 c "501" "Was expecting MAIL arg syntax of FROM:<address>"
      | some pr =>
        if pr.2 ≠ "" then
          match parseArgs pr.2 with
          | none => reply1 c "501" "Unable to parse MAIL ESMTP parameters"
          | some kvs =>
            if argGet kvs "SIZE" ≠ "" then
              match parseInt32 (argGet kvs "SIZE") with
              | none => reply1 c "501" "Unable to parse SIZE as an integer"
              | some size =>
                if 0 < srv.MaxMessageBytes ∧ (srv.MaxMessageBytes : Int) < size then
                  reply1 c "552" "Max message size exceeded"
                else mailAccept c m pr.1
            else mailAccept c m pr.1
        else mailAccept c m pr.1

/-! ### AUTH and the SASL sub-loop (src/conn.go:228) -/

/-- Result of the SASL challenge/response loop: the user after the
mechanism's assignments, the replies written inside the loop, and
whether the loop exited through `done` (as opposed to a mechanism
error, a base64 error, or the client stream ending). -/
structure SaslRes where
  user : Option String
  replies : List Reply
  reachedDone : Bool
deriving Repr

/-- The user field after one mechanism step: the assignment the
mechanism performed, if any, otherwise the previous user. -/
def updUser (su user : Option String) : Option String :=
  match su with
  | some u => some u
  | none => user

/-- The challenge/response loop of `handleAuth`: call `sasl.Next`, stop
on error or `done`, otherwise write the base64 challenge as a `334`
reply and read the next client line. An empty client line leaves the
previous response bytes in place, mirroring the Go code. -/
def saslLoop (mech : Mech) (st : Nat) (user : Option String)
    (response : Option (List Nat)) (lines : List String) : SaslRes :=
  let pr := mech.step st response
  let user1 := updUser pr.2.setUser user
  match pr.2.err with
  | some e => ⟨user1, [("454", [e])], false⟩
  | none =>
    if pr.2.done then ⟨user1, [], true⟩
    else
      let encoded := if pr.2.challenge.isEmpty then ""
        else base64Encode pr.2.challenge
      match lines with
      | [] => ⟨user1, [("334", [encoded])], false⟩
      | l :: rest =>
        if l = "" then
          let res := saslLoop mech pr.1 user1 response rest
          ⟨res.user, ("334", [encoded]) :: res.replies, res.reachedDone⟩
        else
          match base64Decode l with
          | none => ⟨user1, [("334", [encoded]),
              ("454", ["Invalid base64 data"])], false⟩
          | some bs =>
            let res := saslLoop mech pr.1 user1 (some bs) rest
            ⟨res.user, ("334", [encoded]) :: res.replies, res.reachedDone⟩

/-- Mechanism registry lookup, modelling `c.server.auths[mechanism]`. -/
def lookupMech (l : List (String × Mech)) (k : String) : Option Mech :=
  match l.find? (fun p => p.1 == k) with
  | some p => some p.2
  | none => none

/-- The tail of `handleAuth` after the SASL loop (src/conn.go:293): the
connection keeps whatever user the mechanism set; when the loop exited
through `done` and a user is logged in, reply `235` and create an empty
envelope. -/
def authFinish (c : Conn) (res : SaslRes) : HRes :=
  let c1 := { c with User := res.user }
  if res.reachedDone then
    match res.user with
    | some _ =>
      ⟨{ c1 with msg := some ⟨"", []⟩ },
        res.replies ++ [("235", ["Authentication succeeded"])], false⟩
    | none => ⟨c1, res.replies, false⟩
  else ⟨c1, res.replies, false⟩

/-- `Conn.handleAuth` (src/conn.go:228).  The client initial response is
decoded before the mechanism lookup, and a decode failure returns with
no reply at all.  `lines` are the client lines the scanner would read
inside the loop. -/
def handleAuth (srv : Server) (c : Conn) (arg : String)
    (lines : List String) : HRes :=
  if c.helo = "" then reply1 c "502" "Please introduce yourself first."
  else if arg = "" then reply1 c "502" "Missing parameter"
  else
    match fields arg with
    | [] => ⟨c, [], true⟩
    | mech0 :: rest =>
      let mechanism := upperStr mech0
      let irOpt : Option (Option (List Nat)) :=
        match rest with
        | [] => some none
        | t :: _ =>
          match base64Decode t with
          | none => none
          | some bs => some (some bs)
      match irOpt with
      | none => ⟨c, [], false⟩
      | some ir =>
        match lookupMech srv.auths mechanism with
        | none => reply1 c "504" "Unsupported authentication mechanism"
        | some mech => authFinish c (saslLoop mech 0 c.User ir lines)

/-! ### Command dispatch (src/conn.go:51) -/

/-- The `500` reply for a syntactically unrecognized verb. -/
def unknownReply (cmd : String) : Reply :=
  ("500", ["Syntax error, " ++ cmd ++ " command unrecognized"])

/-- `Conn.handle` (src/conn.go:51): dispatch one command.  The caller
uppercases the verb before dispatch; `lines` feeds the SASL sub-loop and
`hsOK` the TLS handshake outcome. -/
def handle (srv : Server) (c : Conn) (cmd arg : String)
    (lines : List String) (hsOK : Bool) : HRes :=
  if cmd = "" then reply1 c "500" "Speak up"
  else if cmd = "SEND" ∨ cmd = "SOML" ∨ cmd = "SAML" ∨ cmd = "EXPN" ∨
      cmd = "HELP" ∨ cmd = "TURN" then
    reply1 c "502" (cmd ++ " command not implemented")
  else if cmd = "HELO" ∨ cmd = "EHLO" then
    handleGreet srv c (cmd == "EHLO") arg
  else if cmd = "MAIL" then handleMail srv c arg
  else if cmd = "RCPT" then handleRcpt srv c arg
  else if cmd = "VRFY" then
    reply1 c "252" "Cannot VRFY user, but will accept message"
  else if cmd = "NOOP" then reply1 c "250" "I have sucessfully done nothing"
  else if cmd = "RSET" then
    ⟨resetConn c, [("250", ["Session reset"])], false⟩
  else if cmd = "DATA" then handleData srv c arg
  else if cmd = "QUIT" then
    ⟨{ c with closed := true }, [("221", ["Goodnight and good luck"])], false⟩
  else if cmd = "AUTH" then handleAuth srv c arg lines
  else if cmd = "STARTTLS" then handleStartTLS srv c hsOK
  else
    if c.nbrErrors + 1 > 3 then
      ⟨{ c with nbrErrors := c.nbrErrors + 1, closed := true },
        [unknownReply cmd, ("500", ["Too many unrecognized commands"])], false⟩
    else
      ⟨{ c with nbrErrors := c.nbrErrors + 1 }, [unknownReply cmd], false⟩

/-- The command loop on a list of pre-split command lines: dispatch until
the connection closes, collecting all replies. -/
def run (srv : Server) : Conn → List (String × String) → Conn × List Reply
  | c, [] => (c, [])
  | c, (cmd, arg) :: rest =>
    if c.closed then (c, [])
    else
      let r := handle srv c cmd arg [] true
      if r.crashed then (r.conn, r.replies)
      else
        let t := run srv r.conn rest
        (t.1, r.replies ++ t.2)

/-- The connection state right after the 220 greeting. -/
def freshConn : Conn :=
  { helo := "", User := none, msg := none, isTLS := false,
    nbrErrors := 0, closed := false }

/-! ### Data reader (body ingestion)

Modelled from the spec: the data reader (`newDataReader`) lives in a
repository file that is not under src/.  Per the spec (section 4.3), the
body is a byte stream terminated by `CRLF "." CRLF` at the start of a
line, a lone `.` on the first body line terminates an empty body, only
exact CRLF ends a line, and any line whose first byte after a CRLF is
`.` with further bytes before the CRLF has that leading `.` removed;
reaching end of input before the terminator is an error (`none`). -/

/-- Take one CRLF-terminated line: the line without its CRLF and the
remaining stream, or `none` when the stream ends first.  Only an exact
CR-LF pair ends a line. -/
def takeLine : List Char → Option (List Char × List Char)
  | [] => none
  | c :: rest =>
    if c = '\r' ∧ rest.head? = some '\n' then some ([], rest.tail)
    else
      match takeLine rest with
      | none => none
      | some p => some (c :: p.1, p.2)

/-- Dot-unstuffing of one line: a leading `.` is removed. -/
def unstuffLine : List Char → List Char
  | '.' :: rest => rest
  | l => l

/-- Modelled from the spec: the delivered body of a wire stream, reading
CRLF lines until the lone-dot terminator line, unstuffing each body
line.  The fuel decreases once per line; callers supply fuel larger than
the number of lines. -/
def dataGo : Nat → List Char → Option (List Char)
  | 0, _ => none
  | fuel + 1, s =>
    match takeLine s with
    | none => none
    | some p =>
      if p.1 = ['.'] then some []
      else
        match dataGo fuel p.2 with
        | none => none
        | some d => some (unstuffLine p.1 ++ '\r' :: '\n' :: d)

/-- Modelled from the spec: the body delivered to the backend for a wire
stream (everything after the `354` reply), or `none` when the transport
ends before the terminator. -/
def dataDeliver (s : List Char) : Option (List Char) :=
  dataGo (s.length + 1) s

/-- Join CRLF-terminated lines back into a stream. -/
def joinCRLF : List (List Char) → List Char
  | [] => []
  | l :: rest => l ++ '\r' :: '\n' :: joinCRLF rest

/-- Whether a character list contains the two-character CRLF sequence. -/
def hasCRLF : List Char → Bool
  | [] => false
  | c :: rest => ((c == '\r') && (rest.head? == some '\n')) || hasCRLF rest

/-- Whether `p` is a prefix of the second list. -/
def startsWithL : List Char → List Char → Bool
  | [], _ => true
  | _ :: _, [] => false
  | p :: ps, c :: cs => (p == c) && startsWithL ps cs

/-- Whether `p` occurs as a contiguous subsequence. -/
def hasSub (p : List Char) : List Char → Bool
  | [] => startsWithL p []
  | c :: rest => startsWithL p (c :: rest) || hasSub p rest

/-- The delivered-body formula stated by the spec sentence under test:
replace every occurrence of CRLF followed by two dots with CRLF followed
by one dot. -/
def specReplacedBody : List Char → List Char
  | '\r' :: '\n' :: '.' :: '.' :: rest => '\r' :: '\n' :: '.' :: specReplacedBody rest
  | c :: rest => c :: specReplacedBody rest
  | [] => []

/-! ### The invariant of claim C8 and concrete fixtures for witnesses -/

/-- The implication chain of the spec's data-model invariant: a non-empty
envelope implies a logged-in user implies a recorded hello domain. -/
def Inv (c : Conn) : Prop :=
  (c.msg ≠ none → c.User ≠ none) ∧ (c.User ≠ none → c.helo ≠ "")

/-- The verbs `Conn.handle` recognizes (including the empty command,
which gets its own reply). -/
def knownVerbs : List String :=
  ["", "SEND", "SOML", "SAML", "EXPN", "HELP", "TURN", "HELO", "EHLO",
   "MAIL", "RCPT", "VRFY", "NOOP", "RSET", "DATA", "QUIT", "AUTH",
   "STARTTLS"]

/-- A minimal server configuration: no TLS, insecure AUTH allowed, no
limits, no mechanisms, backend accepting every message. -/
def srv0 : Server :=
  ⟨"example.com", false, true, 0, 0, [], [], fun _ _ => SendOutcome.ok⟩

/-- `srv0` with a 1024-byte message size limit. -/
def srv1024 : Server := { srv0 with MaxMessageBytes := 1024 }

/-- `srv0` with a one-recipient limit. -/
def srvOneRcpt : Server := { srv0 with MaxRecipients := 1 }

/-- A connection that has only completed HELO. -/
def heloConn : Conn := { freshConn with helo := "client" }

/-- A connection with hello, user, sender and one recipient in place. -/
def authedConn : Conn := ⟨"client", some "u", some ⟨"a@b", ["c@d"]⟩, false, 0, false⟩

/-- A connection ready for MAIL: hello and user set, empty envelope. -/
def mailReadyConn : Conn := ⟨"h", some "u", some ⟨"", []⟩, false, 0, false⟩

/-- A connection whose envelope already holds one recipient. -/
def fullConn : Conn := ⟨"client", some "u", some ⟨"a@b", ["x@y"]⟩, false, 0, false⟩

/-! ## Claim C5 -/

/-- Claim C5: if `MaxRecipients = k > 0` and the envelope already holds
`k` recipients, a further RCPT with a well-formed `TO:` argument elicits
reply `552` and leaves the connection, in particular `envelope.to`,
unchanged. -/
theorem C5_rcpt_limit (srv : Server) (c : Conn) (arg : String) (m : Message)
    (hm : c.msg = some m) (hf : m.From ≠ "")
    (hk : 0 < srv.MaxRecipients) (hlen : m.To.length = srv.MaxRecipients)
    (h4 : 4 ≤ arg.data.length)
    (hto : upperStr (String.mk (arg.data.take 3)) = "TO:") :
    (handleRcpt srv c arg).replies =
      [("552", ["Maximum limit of " ++ toString srv.MaxRecipients ++
        " recipients reached"])] ∧
    (handleRcpt srv c arg).conn = c := by
  unfold handleRcpt
  simp only [hm]
  rw [if_neg hf, if_neg (by push_neg; exact ⟨by omega, hto⟩),
    if_pos ⟨hk, by omega⟩]
  exact ⟨rfl, rfl⟩

/-- Claim C5 witness: the limit case at a concrete input. -/
theorem C5_rcpt_limit_witness :
    (handleRcpt srvOneRcpt fullConn "TO:<y@z>").replies =
      [("552", ["Maximum limit of " ++ toString srvOneRcpt.MaxRecipients ++
        " recipients reached"])] ∧
    (handleRcpt srvOneRcpt fullConn "TO:<y@z>").conn = fullConn :=
  C5_rcpt_limit srvOneRcpt fullConn "TO:<y@z>" ⟨"a@b", ["x@y"]⟩ rfl
    (by decide) (by decide) (by decide) (by decide) (by decide)

/-! ## Claim C7 -/

/-- Claim C7: whenever `tls_config` is absent, a STARTTLS command in any
connection state elicits reply `502` and changes nothing: the connection
state, in particular the transport flag, the hello domain, the user and
the envelope, is unchanged. -/
theorem C7_starttls (srv : Server) (c : Conn) (lines : List String)
    (hsOK : Bool) (h : srv.TLSConfig = false) :
    (handle srv c "STARTTLS" "" lines hsOK).conn = c ∧
    ∃ t, (handle srv c "STARTTLS" "" lines hsOK).replies = [("502", [t])] := by
  have hd : handle srv c "STARTTLS" "" lines hsOK = handleStartTLS srv c hsOK := rfl
  rw [hd]
  unfold handleStartTLS
  by_cases htls : c.isTLS
  · rw [if_pos htls]
    exact ⟨rfl, "Already running in TLS", rfl⟩
  · rw [if_neg htls, if_pos (by simp [h])]
    exact ⟨rfl, "TLS not supported", rfl⟩

/-- Claim C7 witness: a concrete plaintext connection with TLS not
configured. -/
theorem C7_starttls_witness :
    (handle srv0 heloConn "STARTTLS" "" [] true).conn = heloConn ∧
    ∃ t, (handle srv0 heloConn "STARTTLS" "" [] true).replies = [("502", [t])] :=
  C7_starttls srv0 heloConn [] true (by decide)

/-! ## Claim C3 -/

/-- Claim C3 counterexample: after a completed DATA command the hello
domain and the user do NOT survive: `handleData` ends in `Conn.reset`,
which clears both, refuting the claim that only the envelope is
cleared. -/
theorem C3_counterexample :
    authedConn.helo = "client" ∧ authedConn.User = some "u" ∧
    (handle srv0 authedConn "DATA" "" [] true).conn.helo = "" ∧
    (handle srv0 authedConn "DATA" "" [] true).conn.User = none := by
  decide

/-- Claim C3 (amended): when a DATA command completes (backend delivery
returned, whatever the reply), the whole session is reset: the envelope
is cleared, the user is logged out and the hello domain is cleared, since
`handleData` ends in `Conn.reset`. -/
theorem C3_data_resets (srv : Server) (c : Conn) (m : Message) (u : String)
    (hm : c.msg = some m) (hf : m.From ≠ "") (ht : m.To ≠ [])
    (hu : c.User = some u) :
    (handle srv c "DATA" "" [] true).conn.helo = "" ∧
    (handle srv c "DATA" "" [] true).conn.User = none ∧
    (handle srv c "DATA" "" [] true).conn.msg = none ∧
    (handle srv c "DATA" "" [] true).replies =
      [("354", ["Go ahead. End your data with <CR><LF>.<CR><LF>"]),
        sendReply (srv.send u m)] := by
  have hd : handle srv c "DATA" "" [] true = handleData srv c "" := rfl
  rw [hd]
  unfold handleData
  simp only [hm, hu]
  rw [if_neg (by decide), if_neg (by push_neg; exact ⟨hf, ht⟩)]
  exact ⟨rfl, rfl, rfl, rfl⟩

/-- Claim C3 witness: the reset observed at a concrete input. -/
theorem C3_data_resets_witness :
    (handle srv0 authedConn "DATA" "" [] true).conn.helo = "" ∧
    (handle srv0 authedConn "DATA" "" [] true).conn.User = none ∧
    (handle srv0 authedConn "DATA" "" [] true).conn.msg = none ∧
    (handle srv0 authedConn "DATA" "" [] true).replies =
      [("354", ["Go ahead. End your data with <CR><LF>.<CR><LF>"]),
        sendReply (srv0.send "u" ⟨"a@b", ["c@d"]⟩)] :=
  C3_data_resets srv0 authedConn ⟨"a@b", ["c@d"]⟩ "u" rfl (by decide)
    (by decide) rfl

/-! ## Claim C10 -/

/-- Claim C10 counterexample: with `envelope.from` set but the recipient
limit already reached, the argument `TO:<>` is NOT accepted: the reply is
`552` and nothing is appended. -/
theorem C10_counterexample :
    fullConn.msg = some ⟨"a@b", ["x@y"]⟩ ∧
    (handleRcpt srvOneRcpt fullConn "TO:<>").replies =
      [("552", ["Maximum limit of 1 recipients reached"])] ∧
    (handleRcpt srvOneRcpt fullConn "TO:<>").conn = fullConn := by
  decide

/-- Claim C10 (amended): with `envelope.from` set and the recipient limit
not reached, a RCPT command whose address part is empty after trimming
angle brackets and spaces (for example `TO:<>`) is accepted: the server
replies `250` and appends the empty string to `envelope.to`. -/
theorem C10_empty_rcpt (srv : Server) (c : Conn) (arg : String) (m : Message)
    (hm : c.msg = some m) (hf : m.From ≠ "")
    (hcap : srv.MaxRecipients = 0 ∨ m.To.length < srv.MaxRecipients)
    (h4 : 4 ≤ arg.data.length)
    (hto : upperStr (String.mk (arg.data.take 3)) = "TO:")
    (htrim : trimSet (String.mk (arg.data.drop 3)) ['<', '>', ' '] = "") :
    (handleRcpt srv c arg).replies =
      [("250", ["I'll make sure <> gets this"])] ∧
    (handleRcpt srv c arg).conn =
      { c with msg := some { m with To := m.To ++ [""] } } := by
  unfold handleRcpt
  simp only [hm]
  rw [if_neg hf, if_neg (by push_neg; exact ⟨by omega, hto⟩)]
  rw [if_neg (by rintro ⟨h1, h2⟩; rcases hcap with h | h <;> omega)]
  rw [htrim]
  exact ⟨rfl, rfl⟩

/-- Claim C10 witness: `TO:<>` accepted at a concrete input. -/
theorem C10_empty_rcpt_witness :
    (handleRcpt srv0 fullConn "TO:<>").replies =
      [("250", ["I'll make sure <> gets this"])] ∧
    (handleRcpt srv0 fullConn "TO:<>").conn =
      { fullConn with msg := some ⟨"a@b", ["x@y", ""]⟩ } :=
  C10_empty_rcpt srv0 fullConn "TO:<>" ⟨"a@b", ["x@y"]⟩ rfl (by decide)
    (Or.inl rfl) (by decide) (by decide) (by decide)

/-! ## Unknown-verb dispatch lemma (shared by several claims) -/

/-- For a verb outside the recognized set, `Conn.handle` takes the
default branch: the unrecognized `500`, the counter increment, and the
overflow reply plus close once the incremented counter exceeds 3. -/
theorem handle_eq_unknown (srv : Server) (c : Conn) (cmd arg : String)
    (lines : List String) (hsOK : Bool) (h : cmd ∉ knownVerbs) :
    handle srv c cmd arg lines hsOK =
      if 3 < c.nbrErrors + 1 then
        ⟨{ c with nbrErrors := c.nbrErrors + 1, closed := true },
          [unknownReply cmd, ("500", ["Too many unrecognized commands"])],
          false⟩
      else
        ⟨{ c with nbrErrors := c.nbrErrors + 1 }, [unknownReply cmd],
          false⟩ := by
  simp only [knownVerbs, List.mem_cons, List.not_mem_nil, or_false,
    not_or] at h
  obtain ⟨h0, h1, h2, h3, h4, h5, h6, h7, h8, h9, h10, h11, h12, h13, h14,
    h15, h16, h17⟩ := h
  unfold handle
  simp [h0, h1, h2, h3, h4, h5, h6, h7, h8, h9, h10, h11, h12, h13, h14,
    h15, h16, h17]

/-! ## Claim C2 -/

/-- Claim C2 counterexample: four repetitions of FOOBAR do NOT elicit
just four `500` replies with the overflow left to a fifth command: the
counter exceeds 3 already on the fourth unknown command, so the fourth
FOOBAR elicits both its unrecognized `500` and the overflow `500` (five
replies in total) and the connection closes. -/
theorem C2_counterexample :
    (run srv0 freshConn (List.replicate 4 ("FOOBAR", ""))).2.length = 5 ∧
    (run srv0 freshConn (List.replicate 4 ("FOOBAR", ""))).1.closed = true := by
  decide

/-- Claim C2 (amended): every unrecognized verb elicits the `500`
unrecognized reply and increments `unknown_cmd_count`; when the
incremented counter exceeds 3 — that is, on the fourth unknown command —
the server additionally replies `500 Too many unrecognized commands` and
closes.  Concretely, three FOOBAR repetitions elicit three `500` replies,
and the fourth triggers the overflow reply and the close. -/
theorem C2_unknown (srv : Server) (c : Conn) (cmd arg : String)
    (lines : List String) (hsOK : Bool) (h : cmd ∉ knownVerbs) :
    ((handle srv c cmd arg lines hsOK).conn.nbrErrors = c.nbrErrors + 1) ∧
    (3 < c.nbrErrors + 1 →
      (handle srv c cmd arg lines hsOK).replies =
        [unknownReply cmd, ("500", ["Too many unrecognized commands"])] ∧
      (handle srv c cmd arg lines hsOK).conn.closed = true) ∧
    (c.nbrErrors + 1 ≤ 3 →
      (handle srv c cmd arg lines hsOK).replies = [unknownReply cmd] ∧
      (handle srv c cmd arg lines hsOK).conn.closed = c.closed) ∧
    (run srv0 freshConn (List.replicate 3 ("FOOBAR", ""))).2 =
      [unknownReply "FOOBAR", unknownReply "FOOBAR", unknownReply "FOOBAR"] ∧
    (run srv0 freshConn (List.replicate 3 ("FOOBAR", ""))).1.closed = false ∧
    (run srv0 freshConn (List.replicate 4 ("FOOBAR", ""))).2 =
      [unknownReply "FOOBAR", unknownReply "FOOBAR", unknownReply "FOOBAR",
        unknownReply "FOOBAR", ("500", ["Too many unrecognized commands"])] ∧
    (run srv0 freshConn (List.replicate 4 ("FOOBAR", ""))).1.closed = true := by
  have hmain := handle_eq_unknown srv c cmd arg lines hsOK h
  refine ⟨?_, ?_, ?_, by decide, by decide, by decide, by decide⟩
  · rw [hmain]; split <;> rfl
  · intro hgt; rw [hmain, if_pos hgt]; exact ⟨rfl, rfl⟩
  · intro hle; rw [hmain, if_neg (by omega)]; exact ⟨rfl, rfl⟩

/-- Claim C2 witness: the first FOOBAR on a fresh connection. -/
theorem C2_unknown_witness :
    (handle srv0 freshConn "FOOBAR" "" [] true).replies =
      [unknownReply "FOOBAR"] ∧
    (handle srv0 freshConn "FOOBAR" "" [] true).conn.closed =
      freshConn.closed :=
  (C2_unknown srv0 freshConn "FOOBAR" "" [] true (by decide)).2.2.1
    (by decide)

/-! ## Claim C4 -/

/-- Claim C4 counterexample: an AUTH command naming a mechanism that is
not registered but carrying an initial-response token that is not valid
base64 gets NO reply at all (the decode failure returns before the
mechanism lookup), refuting the claim that every unknown mechanism gets
a `504` whatever the initial-response token is. -/
theorem C4_counterexample :
    (lookupMech srv0.auths (upperStr "FOO")).isNone = true ∧
    (handleAuth srv0 heloConn "FOO ~~~" []).replies = [] := by
  decide

/-- Claim C4 (amended): for an AUTH command (hello domain set, non-empty
argument) whose uppercased mechanism token is not registered, the server
replies `504 Unsupported authentication mechanism` provided the optional
initial-response token, when present, is valid base64; when that token is
not valid base64 the command instead terminates silently with no reply.
The connection state is unchanged either way. -/
theorem C4_unknown_mech (srv : Server) (c : Conn) (arg : String)
    (lines : List String) (mech0 : String) (rest : List String)
    (hh : c.helo ≠ "") (ha : arg ≠ "") (hf : fields arg = mech0 :: rest)
    (hlk : lookupMech srv.auths (upperStr mech0) = none) :
    ((rest = [] ∨ ∃ t ts bs, rest = t :: ts ∧ base64Decode t = some bs) →
      (handleAuth srv c arg lines).replies =
        [("504", ["Unsupported authentication mechanism"])] ∧
      (handleAuth srv c arg lines).conn = c) ∧
    (∀ t ts, rest = t :: ts → base64Decode t = none →
      (handleAuth srv c arg lines).replies = [] ∧
      (handleAuth srv c arg lines).conn = c) := by
  unfold handleAuth
  rw [if_neg hh, if_neg ha]
  simp only [hf]
  constructor
  · rintro (hrest | ⟨t, ts, bs, hrest, hdec⟩)
    · subst hrest
      simp [hlk, reply1]
    · subst hrest
      simp [hdec, hlk, reply1]
  · rintro t ts hrest hdec
    subst hrest
    simp [hdec]

/-- Claim C4 witness: unknown mechanism without an initial response gets
the `504`. -/
theorem C4_unknown_mech_witness :
    (handleAuth srv0 heloConn "FOO" []).replies =
      [("504", ["Unsupported authentication mechanism"])] ∧
    (handleAuth srv0 heloConn "FOO" []).conn = heloConn :=
  (C4_unknown_mech srv0 heloConn "FOO" [] "FOO" [] (by decide) (by decide)
    (by decide) rfl).1 (Or.inl rfl)

/-! ## Claim C1 -/

/-- HELO/EHLO always writes a reply. -/
theorem handleGreet_replies_len (srv : Server) (c : Conn) (e : Bool)
    (arg : String) : 1 ≤ (handleGreet srv c e arg).replies.length := by
  unfold handleGreet reply1
  repeat' split
  all_goals simp

/-- MAIL always writes a reply. -/
theorem handleMail_replies_len (srv : Server) (c : Conn) (arg : String) :
    1 ≤ (handleMail srv c arg).replies.length := by
  unfold handleMail mailAccept reply1
  repeat' split
  all_goals simp

/-- RCPT always writes a reply. -/
theorem handleRcpt_replies_len (srv : Server) (c : Conn) (arg : String) :
    1 ≤ (handleRcpt srv c arg).replies.length := by
  unfold handleRcpt reply1
  repeat' split
  all_goals simp

/-- DATA always writes a reply (at least the error reply or the `354`). -/
theorem handleData_replies_len (srv : Server) (c : Conn) (arg : String) :
    1 ≤ (handleData srv c arg).replies.length := by
  unfold handleData reply1
  repeat' split
  all_goals simp

/-- STARTTLS always writes a reply. -/
theorem handleStartTLS_replies_len (srv : Server) (c : Conn) (hsOK : Bool) :
    1 ≤ (handleStartTLS srv c hsOK).replies.length := by
  unfold handleStartTLS reply1
  repeat' split
  all_goals simp

/-- Claim C1 counterexample: the AUTH command `AUTH PLAIN ~~~` (helo set,
initial-response token not valid base64) is accepted by the dispatcher
yet writes NO reply line at all, refuting the claim that every accepted
command, in particular every AUTH command, writes at least one reply. -/
theorem C1_counterexample :
    (handle srv0 heloConn "AUTH" "PLAIN ~~~" [] true).replies = [] := by
  decide

/-- Claim C1 (amended): every command line the engine accepts writes at
least one reply line before the next command is read, with two
exceptions: DATA, which writes the intermediate `354` followed by
exactly one terminal reply after body termination, and AUTH, which can
terminate silently with no reply (initial response not valid base64,
client stream ending inside the SASL exchange, or the mechanism
completing without a logged-in user). -/
theorem C1_replies (srv : Server) (c : Conn) (cmd arg : String)
    (lines : List String) (hsOK : Bool) (h : cmd ≠ "AUTH") :
    1 ≤ (handle srv c cmd arg lines hsOK).replies.length ∧
    (∀ m, cmd = "DATA" → arg = "" → c.msg = some m → m.From ≠ "" →
      m.To ≠ [] → c.User ≠ none →
      ∃ r, (handle srv c cmd arg lines hsOK).replies =
        [("354", ["Go ahead. End your data with <CR><LF>.<CR><LF>"]), r]) := by
  constructor
  · by_cases h0 : cmd ∈ knownVerbs
    · simp only [knownVerbs, List.mem_cons, List.not_mem_nil, or_false] at h0
      rcases h0 with h1|h1|h1|h1|h1|h1|h1|h1|h1|h1|h1|h1|h1|h1|h1|h1|h1|h1 <;>
        subst h1 <;>
        first
        | exact absurd rfl h
        | exact handleGreet_replies_len srv c _ arg
        | exact handleMail_replies_len srv c arg
        | exact handleRcpt_replies_len srv c arg
        | exact handleData_replies_len srv c arg
        | exact handleStartTLS_replies_len srv c hsOK
        | exact Nat.le.refl
    · rw [handle_eq_unknown srv c cmd arg lines hsOK h0]
      split <;> simp
  · rintro m hcmd harg hm hf ht hu
    subst hcmd
    subst harg
    have hd : handle srv c "DATA" "" lines hsOK = handleData srv c "" := rfl
    rw [hd]
    unfold handleData
    rw [if_neg (by simp)]
    simp only [hm]
    rw [if_neg (by push_neg; exact ⟨hf, ht⟩)]
    obtain ⟨u, hu2⟩ := Option.ne_none_iff_exists'.mp hu
    simp only [hu2]
    exact ⟨sendReply (srv.send u m), rfl⟩

/-- Claim C1 witness: the DATA shape at a concrete input. -/
theorem C1_replies_witness :
    1 ≤ (handle srv0 authedConn "DATA" "" [] true).replies.length ∧
    ∃ r, (handle srv0 authedConn "DATA" "" [] true).replies =
      [("354", ["Go ahead. End your data with <CR><LF>.<CR><LF>"]), r] :=
  ⟨(C1_replies srv0 authedConn "DATA" "" [] true (by decide)).1,
    (C1_replies srv0 authedConn "DATA" "" [] true (by decide)).2
      ⟨"a@b", ["c@d"]⟩ rfl rfl rfl (by decide) (by decide) (by decide)⟩

/-! ## Claim C6 -/

/-- Claim C6: if `max_message_bytes > 0` and a MAIL command with valid
FROM syntax carries a SIZE parameter in 32-bit range exceeding the
limit, the server replies `552 Max message size exceeded` and the
connection state, in particular `envelope.from`, is unchanged. -/
theorem C6_mail_size (srv : Server) (c : Conn) (arg : String) (m : Message)
    (addr params : String) (kvs : List (String × String)) (n : Int)
    (hh : c.helo ≠ "") (hm : c.msg = some m)
    (hmax : 0 < srv.MaxMessageBytes)
    (hre : mailParse arg = some (addr, params)) (hp : params ≠ "")
    (hargs : parseArgs params = some kvs)
    (hsz : argGet kvs "SIZE" ≠ "")
    (hn : parseInt32 (argGet kvs "SIZE") = some n)
    (hgt : (srv.MaxMessageBytes : Int) < n) :
    (handleMail srv c arg).replies = [("552", ["Max message size exceeded"])] ∧
    (handleMail srv c arg).conn = c := by
  unfold handleMail
  rw [if_neg hh]
  simp only [hm, hre]
  rw [if_pos hp]
  simp only [hargs]
  rw [if_pos hsz]
  simp only [hn]
  rw [if_pos ⟨hmax, hgt⟩]
  exact ⟨rfl, rfl⟩

/-- Claim C6 witness: `MAIL FROM:<a@b> SIZE=2048` against a 1024-byte
limit. -/
theorem C6_mail_size_witness :
    (handleMail srv1024 mailReadyConn "FROM:<a@b> SIZE=2048").replies =
      [("552", ["Max message size exceeded"])] ∧
    (handleMail srv1024 mailReadyConn "FROM:<a@b> SIZE=2048").conn =
      mailReadyConn :=
  C6_mail_size srv1024 mailReadyConn "FROM:<a@b> SIZE=2048" ⟨"", []⟩
    "a@b" " SIZE=2048" [("SIZE", "2048")] 2048
    (by decide) rfl (by decide) (by decide) (by decide) (by decide)
    (by decide) (by decide) (by decide)

/-! ## Claim C8 -/

/-- Every token produced by `fieldsGo` is non-empty. -/
theorem fieldsGo_mem_ne_nil (s : List Char) :
    ∀ (acc x : List Char), x ∈ fieldsGo acc s → x ≠ [] := by
  induction s with
  | nil =>
    rintro (_ | ⟨a, as⟩) x hx
    · simp [fieldsGo] at hx
    · simp only [fieldsGo, List.isEmpty_cons, if_false, Bool.false_eq_true,
        List.mem_singleton] at hx
      subst hx
      simp
  | cons c r ih =>
    intro acc x hx
    simp only [fieldsGo] at hx
    by_cases hws : c.isWhitespace
    · rw [if_pos hws] at hx
      rcases acc with _ | ⟨a, as⟩
      · rw [if_pos (by simp)] at hx
        exact ih [] x hx
      · rw [if_neg (by simp)] at hx
        rcases List.mem_cons.mp hx with hcase | hcase
        · subst hcase; simp
        · exact ih [] x hcase
    · rw [if_neg hws] at hx
      exact ih (c :: acc) x hx

/-- Every token of `fields` is a non-empty string. -/
theorem fields_mem_ne_empty (arg d : String) (hd : d ∈ fields arg) :
    d ≠ "" := by
  unfold fields at hd
  rcases List.mem_map.mp hd with ⟨x, hx, hxd⟩
  have hxne : x ≠ [] := fieldsGo_mem_ne_nil arg.data [] x hx
  intro hcon
  apply hxne
  have hdata : (String.mk x).data = ("" : String).data := by rw [hxd, hcon]
  simpa using hdata

/-- A successfully parsed hello domain is non-empty. -/
theorem parseHelloArgument_ne_empty (arg d : String)
    (h : parseHelloArgument arg = some d) : d ≠ "" := by
  unfold parseHelloArgument at h
  cases hf : fields arg with
  | nil => rw [hf] at h; simp at h
  | cons a t =>
    rw [hf] at h
    have had : a = d := by simpa using h
    subst had
    exact fields_mem_ne_empty arg a (by rw [hf]; exact List.mem_cons_self a t)

/-- The SASL loop never logs a user out: once the user is set it stays
set through any number of challenge/response rounds. -/
theorem saslLoop_user_ne_none (mech : Mech) (lines : List String) :
    ∀ (st : Nat) (user : Option String) (response : Option (List Nat)),
      user ≠ none → (saslLoop mech st user response lines).user ≠ none := by
  induction lines with
  | nil =>
    intro st user response hu
    unfold saslLoop
    rcases hstep : mech.step st response with ⟨st2, chal, dn, er, su⟩
    have h1 : updUser su user ≠ (none : Option String) := by
      cases su <;> simp [updUser, hu]
    cases er with
    | some e => exact h1
    | none => cases dn <;> exact h1
  | cons l rest ih =>
    intro st user response hu
    unfold saslLoop
    rcases hstep : mech.step st response with ⟨st2, chal, dn, er, su⟩
    have h1 : updUser su user ≠ (none : Option String) := by
      cases su <;> simp [updUser, hu]
    cases er with
    | some e => exact h1
    | none =>
      cases dn with
      | true => exact h1
      | false =>
        dsimp only
        by_cases hl : l = ""
        · rw [if_pos hl]
          exact ih _ _ _ h1
        · rw [if_neg hl]
          cases hdec : base64Decode l with
          | none => exact h1
          | some bs => exact ih _ _ _ h1

/-- Resetting the session trivially restores the invariant chain. -/
theorem inv_resetConn (c : Conn) : Inv (resetConn c) := by
  constructor <;> intro hx <;> exact absurd rfl hx

/-- HELO/EHLO preserves the invariant: the new hello domain is
non-empty. -/
theorem inv_handleGreet (srv : Server) (c : Conn) (e : Bool) (arg : String)
    (h : Inv c) : Inv (handleGreet srv c e arg).conn := by
  unfold handleGreet
  cases hp : parseHelloArgument arg with
  | none => simp only [hp]; exact h
  | some d =>
    have hd := parseHelloArgument_ne_empty arg d hp
    simp only [hp]
    split <;> exact ⟨h.1, fun _ => hd⟩

/-- MAIL preserves the invariant: the envelope stays present only when
it already was, and the user and hello domain are untouched. -/
theorem inv_handleMail (srv : Server) (c : Conn) (arg : String)
    (h : Inv c) : Inv (handleMail srv c arg).conn := by
  unfold handleMail
  by_cases hh : c.helo = ""
  · rw [if_pos hh]; exact h
  · rw [if_neg hh]
    cases hm : c.msg with
    | none => exact h
    | some m =>
      have hu := h.1 (by rw [hm]; simp)
      simp only [hm]
      unfold mailAccept
      repeat' split
      all_goals first
        | exact h
        | exact ⟨fun _ => hu, h.2⟩

/-- RCPT preserves the invariant. -/
theorem inv_handleRcpt (srv : Server) (c : Conn) (arg : String)
    (h : Inv c) : Inv (handleRcpt srv c arg).conn := by
  unfold handleRcpt
  cases hm : c.msg with
  | none => exact h
  | some m =>
    have hu := h.1 (by rw [hm]; simp)
    simp only [hm]
    repeat' split
    all_goals first
      | exact h
      | exact ⟨fun _ => hu, h.2⟩

/-- DATA preserves the invariant: either nothing changes or the whole
session resets. -/
theorem inv_handleData (srv : Server) (c : Conn) (arg : String)
    (h : Inv c) : Inv (handleData srv c arg).conn := by
  unfold handleData
  repeat' split
  all_goals first
    | exact h
    | exact inv_resetConn c

/-- STARTTLS preserves the invariant. -/
theorem inv_handleStartTLS (srv : Server) (c : Conn) (hsOK : Bool)
    (h : Inv c) : Inv (handleStartTLS srv c hsOK).conn := by
  unfold handleStartTLS
  repeat' split
  all_goals first
    | exact h
    | exact ⟨(inv_resetConn c).1, (inv_resetConn c).2⟩

/-- The post-loop tail of AUTH preserves the invariant, given that a
present envelope forces a present user after the loop. -/
theorem inv_authFinish (c : Conn) (res : SaslRes) (hh : c.helo ≠ "")
    (hres : c.msg ≠ none → res.user ≠ none) :
    Inv (authFinish c res).conn := by
  unfold authFinish
  split
  · cases hu : res.user with
    | some u =>
      simp only [hu]
      exact ⟨fun _ => by simp, fun _ => hh⟩
    | none =>
      simp only [hu]
      exact ⟨fun hm => (hres hm hu).elim, fun _ => hh⟩
  · exact ⟨fun hm => hres hm, fun _ => hh⟩

/-- AUTH preserves the invariant. -/
theorem inv_handleAuth (srv : Server) (c : Conn) (arg : String)
    (lines : List String) (h : Inv c) :
    Inv (handleAuth srv c arg lines).conn := by
  unfold handleAuth
  by_cases hh : c.helo = ""
  · rw [if_pos hh]; exact h
  · rw [if_neg hh]
    by_cases ha : arg = ""
    · rw [if_pos ha]; exact h
    · rw [if_neg ha]
      cases hf : fields arg with
      | nil => simp only [hf]; exact h
      | cons mech0 rest =>
        simp only [hf]
        have htail : ∀ (mech : Mech) (ir : Option (List Nat)),
            Inv (authFinish c (saslLoop mech 0 c.User ir lines)).conn :=
          fun mech ir => inv_authFinish c _ hh
            (fun hm => saslLoop_user_ne_none mech lines 0 c.User ir (h.1 hm))
        cases rest with
        | nil =>
          cases hlk : lookupMech srv.auths (upperStr mech0) with
          | none => simp only [hlk]; exact h
          | some mech => simp only [hlk]; exact htail mech none
        | cons t ts =>
          cases hdec : base64Decode t with
          | none => simp only [hdec]; exact h
          | some bs =>
            simp only [hdec]
            cases hlk : lookupMech srv.auths (upperStr mech0) with
            | none => simp only [hlk]; exact h
            | some mech => simp only [hlk]; exact htail mech (some bs)

/-- Claim C8: in every reachable connection state, a non-empty envelope
implies a non-empty user, which implies a non-empty hello domain; the
initial state satisfies the chain, and every command dispatch preserves
it. -/
theorem C8_invariant (srv : Server) (c : Conn) (cmd arg : String)
    (lines : List String) (hsOK : Bool) (h : Inv c) :
    Inv freshConn ∧ Inv (handle srv c cmd arg lines hsOK).conn := by
  refine ⟨⟨fun hx => absurd rfl hx, fun hx => absurd rfl hx⟩, ?_⟩
  by_cases h0 : cmd ∈ knownVerbs
  · simp only [knownVerbs, List.mem_cons, List.not_mem_nil, or_false] at h0
    rcases h0 with h1|h1|h1|h1|h1|h1|h1|h1|h1|h1|h1|h1|h1|h1|h1|h1|h1|h1 <;>
      subst h1 <;>
      first
      | exact inv_handleGreet srv c _ arg h
      | exact inv_handleMail srv c arg h
      | exact inv_handleRcpt srv c arg h
      | exact inv_handleData srv c arg h
      | exact inv_handleAuth srv c arg lines h
      | exact inv_handleStartTLS srv c hsOK h
      | exact inv_resetConn c
      | exact h
  · rw [handle_eq_unknown srv c cmd arg lines hsOK h0]
    split <;> exact h

/-- Claim C8 witness: the invariant holds initially and is preserved by a
concrete dispatch. -/
theorem C8_invariant_witness :
    Inv freshConn ∧ Inv (handle srv0 heloConn "NOOP" "" [] true).conn :=
  C8_invariant srv0 heloConn "NOOP" "" [] true
    ⟨fun hx => absurd rfl hx, fun _ => by decide⟩

/-! ## Claim C9 -/

/-- Reading one line of a CRLF-free chunk followed by CRLF yields exactly
that chunk. -/
theorem takeLine_append (l rest : List Char) (h : hasCRLF l = false) :
    takeLine (l ++ '\r' :: '\n' :: rest) = some (l, rest) := by
  induction l with
  | nil => simp [takeLine]
  | cons c t ih =>
    have h2 : hasCRLF t = false := by
      rw [hasCRLF] at h
      simp only [Bool.or_eq_false_iff] at h
      exact h.2
    have h3 : ¬(c = '\r' ∧ (t ++ '\r' :: '\n' :: rest).head? = some '\n') := by
      rintro ⟨hc, hh⟩
      cases t with
      | nil => simp at hh
      | cons d t2 =>
        simp only [List.cons_append, List.head?_cons, Option.some.injEq] at hh
        rw [hasCRLF] at h
        rw [hc, hh] at h
        simp at h
    simp only [List.cons_append, takeLine, List.append_eq]
    rw [if_neg h3, ih h2]

/-- There are at least as many stream characters as lines. -/
theorem joinCRLF_length (lines : List (List Char)) :
    lines.length ≤ (joinCRLF lines).length := by
  induction lines with
  | nil => simp [joinCRLF]
  | cons l rest ih =>
    simp only [joinCRLF, List.length_cons, List.length_append]
    omega

/-- The body reader on a stream of complete CRLF lines (none the lone
dot) followed by the terminator delivers every line unstuffed. -/
theorem dataGo_joinCRLF (lines : List (List Char)) :
    ∀ (fuel : Nat), lines.length < fuel →
      (∀ l ∈ lines, hasCRLF l = false ∧ l ≠ ['.']) →
      dataGo fuel (joinCRLF lines ++ '.' :: '\r' :: '\n' :: []) =
        some (joinCRLF (lines.map unstuffLine)) := by
  induction lines with
  | nil =>
    intro fuel hfuel _
    cases fuel with
    | zero => omega
    | succ f => rfl
  | cons l rest ih =>
    intro fuel hfuel hall
    cases fuel with
    | zero => omega
    | succ f =>
      have hl := hall l (List.mem_cons_self l rest)
      have hrest : ∀ x ∈ rest, hasCRLF x = false ∧ x ≠ ['.'] :=
        fun x hx => hall x (List.mem_cons_of_mem l hx)
      have hf2 : rest.length < f := by
        simp only [List.length_cons] at hfuel
        omega
      have hjoin : joinCRLF (l :: rest) ++ '.' :: '\r' :: '\n' :: [] =
          l ++ '\r' :: '\n' ::
            (joinCRLF rest ++ '.' :: '\r' :: '\n' :: []) := by
        simp [joinCRLF]
      rw [hjoin]
      simp only [dataGo]
      rw [takeLine_append _ _ hl.1]
      simp only [if_neg hl.2]
      rw [ih f hf2 hrest]
      simp [joinCRLF]

/-- Claim C9 counterexample: the wire body `a CRLF .b CRLF` contains no
`CRLF . CRLF`, yet the delivered body is NOT the input with `CRLF..`
replaced by `CRLF.`: the reader also unstuffs the single-dot line `.b`
into `b`. -/
theorem C9_counterexample :
    hasSub ['\r', '\n', '.', '\r', '\n'] ("a\r\n.b\r\n".data) = false ∧
    dataDeliver ("a\r\n.b\r\n".data ++ '.' :: '\r' :: '\n' :: []) ≠
      some (specReplacedBody ("a\r\n.b\r\n".data)) := by
  decide

/-- Claim C9 (amended): for every wire body that is a concatenation of
CRLF-terminated lines, none of which is the lone dot line, the body
delivered to the backend is the wire body with the leading dot of every
dot-initial line removed (the first line included) — dot-unstuffing line
by line rather than a bare `CRLF..` to `CRLF.` replacement. -/
theorem C9_roundtrip (lines : List (List Char))
    (h : ∀ l ∈ lines, hasCRLF l = false ∧ l ≠ ['.']) :
    dataDeliver (joinCRLF lines ++ '.' :: '\r' :: '\n' :: []) =
      some (joinCRLF (lines.map unstuffLine)) := by
  unfold dataDeliver
  apply dataGo_joinCRLF lines _ _ h
  have h1 := joinCRLF_length lines
  simp only [List.length_append]
  omega

/-- Claim C9 witness: the spec's own example, wire body `..foo CRLF`
delivering `.foo CRLF`. -/
theorem C9_roundtrip_witness :
    dataDeliver (joinCRLF ["..foo".data] ++ '.' :: '\r' :: '\n' :: []) =
      some (joinCRLF (["..foo".data].map unstuffLine)) :=
  C9_roundtrip ["..foo".data] (by decide)

end SmtpServer
